import Mathlib

/-!
Verification of the bifrost hue-zigbee codec and legacy-API conversion layer.

The zigbee codec itself (`HueZigbeeUpdate`, `ColorGamut::clamp`, the binary
encoder) is not present under `src/`; only its caller `examples/hz-make.rs`
is.  Those definitions are therefore modelled from the specification
(`spec.md` sections 3, 4.1-4.3, 6, 7), as marked on each definition.  The
legacy-API conversions (`ApiLight::from_dev_and_light`,
`ApiGroup::from_lights_and_room`, `ApiLightStateUpdate::from`,
`UpdateRecord::from_ref`) are translated directly from
`src/hue/legacy_api.rs` and `src/hue/update.rs`.

Real-number (`f64`) fields are modelled by `ℚ`; machine integers by `ℕ`
with explicit bounds/reductions where they matter.
-/

/-- Modelled from the spec (section 3, `ChromaticityPoint`) and the source type
`types::XY` referenced by `src/hue/update.rs`: a pair of coordinates in the
CIE xy chromaticity plane. `f64` coordinates are modelled by `ℚ`. -/
structure XY where
  x : ℚ
  y : ℚ
deriving DecidableEq

/-- Modelled from the spec (section 3, `ColorGamut`): a triangle of three
chromaticity points (red, green, blue primaries). -/
structure ColorGamut where
  red : XY
  green : XY
  blue : XY
deriving DecidableEq

/-- Modelled from the spec (section 3) and the published constants in
`src/hue/legacy_api.rs` (the `colorgamut` capability): the Gamut C preset. -/
def ColorGamut.GAMUT_C : ColorGamut :=
  { red := ⟨0.6915, 0.3083⟩, green := ⟨0.17, 0.7⟩, blue := ⟨0.1532, 0.0475⟩ }

/-- Two-dimensional cross product of the vectors `o → a` and `o → p`,
the orientation test of spec section 4.1 step 1. -/
def cross (o a p : XY) : ℚ :=
  (a.x - o.x) * (p.y - o.y) - (a.y - o.y) * (p.x - o.x)

/-- Modelled from the spec (section 4.1 step 1): `p` lies inside or on the
triangle when the cross products against the three directed edges
(red→green, green→blue, blue→red) do not have strictly mixed signs. -/
def ColorGamut.contains (g : ColorGamut) (p : XY) : Prop :=
  ¬ ((cross g.red g.green p < 0 ∨ cross g.green g.blue p < 0 ∨ cross g.blue g.red p < 0) ∧
     (0 < cross g.red g.green p ∨ 0 < cross g.green g.blue p ∨ 0 < cross g.blue g.red p))

instance (g : ColorGamut) (p : XY) : Decidable (g.contains p) := by
  unfold ColorGamut.contains
  exact inferInstance

/-- Modelled from the spec (section 4.1 step 3): clamp a projection parameter
to the `[0,1]` parametric range of a segment. -/
def clamp01 (t : ℚ) : ℚ := max 0 (min 1 t)

/-- Modelled from the spec (section 4.1 step 3): the closest point on the
segment `a`-`b` to `p`, via scalar projection onto the edge direction,
clamped to the segment. -/
def closestOnSegment (a b p : XY) : XY :=
  let t := clamp01 (((p.x - a.x) * (b.x - a.x) + (p.y - a.y) * (b.y - a.y)) /
                    ((b.x - a.x) * (b.x - a.x) + (b.y - a.y) * (b.y - a.y)))
  ⟨a.x + t * (b.x - a.x), a.y + t * (b.y - a.y)⟩

/-- Squared euclidean distance, used to pick the nearest edge candidate
(spec section 4.1 step 4). -/
def dist2 (p q : XY) : ℚ := (p.x - q.x) ^ 2 + (p.y - q.y) ^ 2

/-- Modelled from the spec (section 4.1, `clamp`): return `p` unchanged when
it is inside the gamut triangle, otherwise the nearest of the three
closest-points on the triangle's edges. -/
def ColorGamut.clamp (g : ColorGamut) (p : XY) : XY :=
  if g.contains p then p
  else if dist2 (closestOnSegment g.red g.green p) p ≤
          dist2 (closestOnSegment g.green g.blue p) p then
    if dist2 (closestOnSegment g.red g.green p) p ≤
        dist2 (closestOnSegment g.blue g.red p) p then
      closestOnSegment g.red g.green p
    else
      closestOnSegment g.blue g.red p
  else if dist2 (closestOnSegment g.green g.blue p) p ≤
          dist2 (closestOnSegment g.blue g.red p) p then
    closestOnSegment g.green g.blue p
  else
    closestOnSegment g.blue g.red p

lemma clamp01_nonneg (t : ℚ) : 0 ≤ clamp01 t := le_max_left 0 _

lemma clamp01_le_one (t : ℚ) : clamp01 t ≤ 1 := max_le (by norm_num) (min_le_left 1 t)

/-- A point of the closed segment from `red` to `green` passes the
orientation test. -/
lemma contains_lerp_red_green (g : ColorGamut) (t : ℚ) (h0 : 0 ≤ t) (h1 : t ≤ 1) :
    g.contains ⟨g.red.x + t * (g.green.x - g.red.x), g.red.y + t * (g.green.y - g.red.y)⟩ := by
  set P : XY := ⟨g.red.x + t * (g.green.x - g.red.x), g.red.y + t * (g.green.y - g.red.y)⟩
  have e1 : cross g.red g.green P = 0 := by
    simp only [P, cross]
    ring
  have e2 : cross g.green g.blue P = (1 - t) * cross g.red g.green g.blue := by
    simp only [P, cross]
    ring
  have e3 : cross g.blue g.red P = t * cross g.red g.green g.blue := by
    simp only [P, cross]
    ring
  unfold ColorGamut.contains
  rcases le_or_lt 0 (cross g.red g.green g.blue) with hD | hD
  · rintro ⟨hneg, -⟩
    rcases hneg with h | h | h
    · rw [e1] at h
      exact absurd h (lt_irrefl 0)
    · rw [e2] at h
      nlinarith [mul_nonneg (by linarith : (0:ℚ) ≤ 1 - t) hD]
    · rw [e3] at h
      nlinarith [mul_nonneg h0 hD]
  · rintro ⟨-, hpos⟩
    rcases hpos with h | h | h
    · rw [e1] at h
      exact absurd h (lt_irrefl 0)
    · rw [e2] at h
      nlinarith [mul_nonpos_of_nonneg_of_nonpos (by linarith : (0:ℚ) ≤ 1 - t) (le_of_lt hD)]
    · rw [e3] at h
      nlinarith [mul_nonpos_of_nonneg_of_nonpos h0 (le_of_lt hD)]

/-- The orientation test is invariant under a cyclic rotation of the
triangle's vertices: the three edge tests are merely permuted. -/
lemma contains_rot (g : ColorGamut) (p : XY) :
    (ColorGamut.mk g.green g.blue g.red).contains p ↔ g.contains p := by
  unfold ColorGamut.contains
  simp only []
  constructor
  · intro h hc
    exact h ⟨by tauto, by tauto⟩
  · intro h hc
    exact h ⟨by tauto, by tauto⟩

lemma contains_closestOnSegment_red_green (g : ColorGamut) (p : XY) :
    g.contains (closestOnSegment g.red g.green p) := by
  unfold closestOnSegment
  exact contains_lerp_red_green g _ (clamp01_nonneg _) (clamp01_le_one _)

lemma contains_closestOnSegment_green_blue (g : ColorGamut) (p : XY) :
    g.contains (closestOnSegment g.green g.blue p) := by
  have h := contains_closestOnSegment_red_green (ColorGamut.mk g.green g.blue g.red) p
  exact (contains_rot g _).mp h

lemma contains_closestOnSegment_blue_red (g : ColorGamut) (p : XY) :
    g.contains (closestOnSegment g.blue g.red p) := by
  have h := contains_closestOnSegment_red_green (ColorGamut.mk g.blue g.red g.green) p
  have h2 := (contains_rot (ColorGamut.mk g.green g.blue g.red)
    (closestOnSegment g.blue g.red p)).mp h
  exact (contains_rot g (closestOnSegment g.blue g.red p)).mp h2

/-- C2: for every color gamut and every input chromaticity point, `clamp`
returns (totally, without error) a point that passes the gamut's own
orientation test, and a point already inside or on the triangle is returned
unchanged. -/
theorem C2_gamut_clamp_containment (g : ColorGamut) (p : XY) :
    g.contains (g.clamp p) ∧ (g.contains p → g.clamp p = p) := by
  unfold ColorGamut.clamp
  split_ifs with hin h1 h2 h3
  · exact ⟨hin, fun _ => rfl⟩
  · exact ⟨contains_closestOnSegment_red_green g p, fun hc => absurd hc hin⟩
  · exact ⟨contains_closestOnSegment_blue_red g p, fun hc => absurd hc hin⟩
  · exact ⟨contains_closestOnSegment_green_blue g p, fun hc => absurd hc hin⟩
  · exact ⟨contains_closestOnSegment_blue_red g p, fun hc => absurd hc hin⟩

/-- C2 witness: the claim instantiated at the Gamut C preset and its red
primary, which lies on the triangle, so it is returned unchanged. -/
theorem C2_gamut_clamp_containment_witness :
    ColorGamut.GAMUT_C.contains (ColorGamut.GAMUT_C.clamp ColorGamut.GAMUT_C.red) ∧
    ColorGamut.GAMUT_C.clamp ColorGamut.GAMUT_C.red = ColorGamut.GAMUT_C.red := by
  have h := C2_gamut_clamp_containment ColorGamut.GAMUT_C ColorGamut.GAMUT_C.red
  have hin : ColorGamut.GAMUT_C.contains ColorGamut.GAMUT_C.red := by
    unfold ColorGamut.contains ColorGamut.GAMUT_C cross
    norm_num
  exact ⟨h.1, h.2 hin⟩

/-- Modelled from the spec (section 3, `GradientStyle`): the closed set of
gradient rendering modes. -/
inductive GradientStyle where
  | Linear : GradientStyle
  | Mirrored : GradientStyle
  | Scattered : GradientStyle
deriving DecidableEq

/-- Modelled from the spec (section 4.3): the wire code of each style. -/
def GradientStyle.code : GradientStyle → ℕ
  | .Linear => 0x00
  | .Mirrored => 0x01
  | .Scattered => 0x02

/-- Modelled from the spec (section 3, `GradientParams`): scale and offset,
small unsigned integers (`u8` in the source). -/
structure GradientParams where
  scale : ℕ
  offset : ℕ
deriving DecidableEq

/-- Modelled from the spec (section 3, `GradientDescriptor`): style, ordered
points, and params. -/
structure GradientDescriptor where
  style : GradientStyle
  points : List XY
  params : GradientParams
deriving DecidableEq

/-- Modelled from the spec (section 3, `UpdateBuilder`; named after the source
type `HueZigbeeUpdate` used by `examples/hz-make.rs`): the accumulator of
optional light-state fields. -/
structure HueZigbeeUpdate where
  onoff : Option Bool
  brightness : Option ℕ
  color : Option XY
  color_temperature : Option ℕ
  gradient : Option GradientDescriptor
deriving DecidableEq

/-- Modelled from the spec (section 7): the validation error kinds. -/
inductive HueError where
  | GradientTooLong : ℕ → ℕ → HueError
  | EmptyGradient : HueError
  | BrightnessOutOfRange : HueError
  | MirekOutOfRange : HueError
deriving DecidableEq

/-- Modelled from the spec: a fresh builder with every field absent. -/
def HueZigbeeUpdate.new : HueZigbeeUpdate :=
  { onoff := none, brightness := none, color := none,
    color_temperature := none, gradient := none }

/-- Modelled from the spec (section 4.2): infallible power setter. -/
def HueZigbeeUpdate.with_on_off (hz : HueZigbeeUpdate) (b : Bool) : HueZigbeeUpdate :=
  { hz with onoff := some b }

/-- Modelled from the spec (section 4.2): stores the raw brightness without
range validation (validation deferred to encode). -/
def HueZigbeeUpdate.with_brightness (hz : HueZigbeeUpdate) (b : ℕ) : HueZigbeeUpdate :=
  { hz with brightness := some b }

/-- Modelled from the spec (section 4.2): infallible single-color setter. -/
def HueZigbeeUpdate.with_single_color (hz : HueZigbeeUpdate) (p : XY) : HueZigbeeUpdate :=
  { hz with color := some p }

/-- Modelled from the spec (section 4.2): infallible color-temperature
setter (mirek). -/
def HueZigbeeUpdate.with_color_temperature (hz : HueZigbeeUpdate) (m : ℕ) : HueZigbeeUpdate :=
  { hz with color_temperature := some m }

/-- Modelled from the spec (sections 4.2 and 7): fails with `GradientTooLong`
for more than 9 colors and `EmptyGradient` for zero colors while a style is
set; otherwise gamut-clamps every color against the target luminaire's gamut
(the published Gamut C preset, the only gamut in evidence) and stores the
style with the clamped colors, with `GradientParams` at the documented
default scale = 0, offset = 0. -/
def HueZigbeeUpdate.with_gradient_colors (hz : HueZigbeeUpdate) (style : GradientStyle)
    (colors : List XY) : Except HueError HueZigbeeUpdate :=
  if 9 < colors.length then
    .error (.GradientTooLong colors.length 9)
  else if colors.length = 0 then
    .error .EmptyGradient
  else
    .ok { hz with gradient := some ⟨style, colors.map ColorGamut.GAMUT_C.clamp, ⟨0, 0⟩⟩ }

/-- Modelled from the spec (section 4.2): infallible; overwrites scale and
offset on an existing gradient descriptor, and is a silent no-op when no
gradient descriptor is present yet. -/
def HueZigbeeUpdate.with_gradient_params (hz : HueZigbeeUpdate) (p : GradientParams) :
    HueZigbeeUpdate :=
  match hz.gradient with
  | none => hz
  | some gd => { hz with gradient := some { gd with params := p } }

/-- Modelled from the spec (section 4.3): round-half-away-from-zero. -/
def roundHalfAway (q : ℚ) : ℤ :=
  if 0 ≤ q then ⌊q + 1 / 2⌋ else ⌈q - 1 / 2⌉

/-- Modelled from the spec (section 4.3): a chromaticity coordinate as a
16-bit unsigned fixed-point value, `round(value * 65535)` clamped to
`[0, 65535]`. -/
def quant16 (q : ℚ) : ℕ :=
  (min 65535 (max 0 (roundHalfAway (q * 65535)))).toNat

/-- A 16-bit unsigned value in little-endian byte order. -/
def u16le (n : ℕ) : List ℕ := [n % 256, n / 256 % 256]

/-- Modelled from the spec (section 4.3): a chromaticity point on the wire,
x then y, each 16-bit fixed point little-endian. -/
def encodeXY (p : XY) : List ℕ := u16le (quant16 p.x) ++ u16le (quant16 p.y)

/-- Lower bound of the valid color-temperature range, in mirek
(spec section 4.3 validation rule 2). -/
def mirekMin : ℕ := 153

/-- Upper bound of the valid color-temperature range, in mirek
(spec section 4.3 validation rule 2). -/
def mirekMax : ℕ := 500

/-- Modelled from the spec (section 4.3): the flags bitmask, one bit per
present optional field: bit0 power, bit1 brightness, bit2 single color,
bit3 color temperature, bit4 gradient. -/
def flagsByte (hz : HueZigbeeUpdate) : ℕ :=
  (if hz.onoff.isSome then 1 else 0) +
  (if hz.brightness.isSome then 2 else 0) +
  (if hz.color.isSome then 4 else 0) +
  (if hz.color_temperature.isSome then 8 else 0) +
  (if hz.gradient.isSome then 16 else 0)

/-- Modelled from the spec (sections 4.3 and 6): the serialization layout,
flags byte first, then for each bit set in ascending order the field's
bytes, with nothing emitted for absent fields. -/
def HueZigbeeUpdate.serialize (hz : HueZigbeeUpdate) : List ℕ :=
  [flagsByte hz] ++
  (match hz.onoff with
   | none => []
   | some b => [if b then 1 else 0]) ++
  (match hz.brightness with
   | none => []
   | some b => [b]) ++
  (match hz.color with
   | none => []
   | some p => encodeXY p) ++
  (match hz.color_temperature with
   | none => []
   | some m => u16le m) ++
  (match hz.gradient with
   | none => []
   | some gd =>
     [gd.style.code, gd.points.length] ++ (gd.points.map encodeXY).flatten ++
     [gd.params.scale, gd.params.offset])

/-- Modelled from the spec (section 4.3, `to_bytes`): validate brightness,
then color temperature, then (defensively) the gradient point count, in that
order, and only then serialize — the full buffer or no buffer at all. -/
def HueZigbeeUpdate.to_bytes (hz : HueZigbeeUpdate) : Except HueError (List ℕ) :=
  if hz.brightness.any fun b => decide (254 < b) then
    .error .BrightnessOutOfRange
  else if hz.color_temperature.any fun m => decide (m < mirekMin) || decide (mirekMax < m) then
    .error .MirekOutOfRange
  else if hz.gradient.any fun gd => decide (gd.points.length = 0) || decide (9 < gd.points.length) then
    .error (.GradientTooLong (hz.gradient.elim 0 fun gd => gd.points.length) 9)
  else
    .ok hz.serialize

/-- Source name used by `examples/hz-make.rs` for the encode operation. -/
def HueZigbeeUpdate.to_vec (hz : HueZigbeeUpdate) : Except HueError (List ℕ) :=
  hz.to_bytes

/-- C4: `with_gradient_colors` fails immediately with `GradientTooLong`
(carrying the attempted and maximum counts) for more than 9 colors and with
`EmptyGradient` for an empty color list while a style is set; for 1..=9
colors it succeeds, storing the style with the gamut-clamped colors and the
default `GradientParams` of scale = 0, offset = 0. -/
theorem C4_with_gradient_colors (hz : HueZigbeeUpdate) (style : GradientStyle)
    (colors : List XY) :
    (9 < colors.length →
      hz.with_gradient_colors style colors = .error (.GradientTooLong colors.length 9)) ∧
    (colors.length = 0 →
      hz.with_gradient_colors style colors = .error .EmptyGradient) ∧
    (1 ≤ colors.length → colors.length ≤ 9 →
      hz.with_gradient_colors style colors =
        .ok { hz with gradient := some ⟨style, colors.map ColorGamut.GAMUT_C.clamp, ⟨0, 0⟩⟩ }) := by
  unfold HueZigbeeUpdate.with_gradient_colors
  refine ⟨fun h => ?_, fun h => ?_, fun h1 h2 => ?_⟩
  · rw [if_pos h]
  · rw [if_neg (by omega), if_pos h]
  · rw [if_neg (by omega), if_neg (by omega)]

/-- C4 witness: 10 points fail with `GradientTooLong`, 0 points fail with
`EmptyGradient`, and 9 points succeed with the clamped colors stored and
default params. -/
theorem C4_with_gradient_colors_witness :
    (HueZigbeeUpdate.new.with_gradient_colors GradientStyle.Linear
        (List.replicate 10 ⟨0.5, 0.5⟩) = .error (.GradientTooLong 10 9)) ∧
    (HueZigbeeUpdate.new.with_gradient_colors GradientStyle.Linear [] =
      .error .EmptyGradient) ∧
    (HueZigbeeUpdate.new.with_gradient_colors GradientStyle.Linear
        (List.replicate 9 ⟨0.5, 0.5⟩) =
      .ok { HueZigbeeUpdate.new with gradient := some ⟨GradientStyle.Linear,
        (List.replicate 9 (⟨0.5, 0.5⟩ : XY)).map ColorGamut.GAMUT_C.clamp, ⟨0, 0⟩⟩ }) := by
  refine ⟨?_, ?_, ?_⟩
  · have h := (C4_with_gradient_colors HueZigbeeUpdate.new GradientStyle.Linear
      (List.replicate 10 ⟨0.5, 0.5⟩)).1 (by norm_num)
    simpa using h
  · exact (C4_with_gradient_colors HueZigbeeUpdate.new GradientStyle.Linear []).2.1 rfl
  · exact (C4_with_gradient_colors HueZigbeeUpdate.new GradientStyle.Linear
      (List.replicate 9 ⟨0.5, 0.5⟩)).2.2 (by norm_num) (by norm_num)

/-- C6: `with_gradient_params` never fails: with no gradient descriptor it
returns the builder unchanged (silent no-op), and with a gradient descriptor
present it overwrites only the descriptor's params, leaving the style, the
colors and every other builder field unchanged. -/
theorem C6_with_gradient_params (hz : HueZigbeeUpdate) (p : GradientParams) :
    (hz.gradient = none → hz.with_gradient_params p = hz) ∧
    (∀ gd, hz.gradient = some gd →
      hz.with_gradient_params p =
        { onoff := hz.onoff, brightness := hz.brightness, color := hz.color,
          color_temperature := hz.color_temperature,
          gradient := some ⟨gd.style, gd.points, p⟩ }) := by
  unfold HueZigbeeUpdate.with_gradient_params
  constructor
  · intro h
    rw [h]
  · intro gd h
    rw [h]

/-- C6 witness: a no-op on a fresh builder without gradient, and a
params-only overwrite on a builder with a gradient descriptor. -/
theorem C6_with_gradient_params_witness :
    (HueZigbeeUpdate.new.with_gradient_params ⟨1, 2⟩ = HueZigbeeUpdate.new) ∧
    (HueZigbeeUpdate.with_gradient_params
        { HueZigbeeUpdate.new with
            gradient := some ⟨GradientStyle.Linear, [⟨0.5, 0.5⟩], ⟨0, 0⟩⟩ } ⟨3, 4⟩ =
      { HueZigbeeUpdate.new with
          gradient := some ⟨GradientStyle.Linear, [⟨0.5, 0.5⟩], ⟨3, 4⟩⟩ }) := by
  constructor
  · exact (C6_with_gradient_params HueZigbeeUpdate.new ⟨1, 2⟩).1 rfl
  · exact (C6_with_gradient_params _ ⟨3, 4⟩).2 ⟨GradientStyle.Linear, [⟨0.5, 0.5⟩], ⟨0, 0⟩⟩ rfl

/-- Number of points in the builder's gradient descriptor (0 when absent). -/
def gradPointCount (hz : HueZigbeeUpdate) : ℕ :=
  hz.gradient.elim 0 fun gd => gd.points.length

/-- Number of optional fields present in the builder. -/
def numPresent (hz : HueZigbeeUpdate) : ℕ :=
  (if hz.onoff.isSome then 1 else 0) +
  (if hz.brightness.isSome then 1 else 0) +
  (if hz.color.isSome then 1 else 0) +
  (if hz.color_temperature.isSome then 1 else 0) +
  (if hz.gradient.isSome then 1 else 0)

/-- Number of set bits in a byte. -/
def setBitCount (n : ℕ) : ℕ := ((List.range 8).filter n.testBit).length

lemma to_bytes_eq_ok_iff (hz : HueZigbeeUpdate) (buf : List ℕ) :
    hz.to_bytes = .ok buf ↔
      (hz.brightness.any fun b => decide (254 < b)) = false ∧
      (hz.color_temperature.any fun m =>
        decide (m < mirekMin) || decide (mirekMax < m)) = false ∧
      (hz.gradient.any fun gd =>
        decide (gd.points.length = 0) || decide (9 < gd.points.length)) = false ∧
      buf = hz.serialize := by
  unfold HueZigbeeUpdate.to_bytes
  split_ifs with h1 h2 h3
  · constructor
    · intro hc
      simp at hc
    · intro hcond
      rw [hcond.1] at h1
      simp at h1
  · constructor
    · intro hc
      simp at hc
    · intro hcond
      rw [hcond.2.1] at h2
      simp at h2
  · constructor
    · intro hc
      simp at hc
    · intro hcond
      rw [hcond.2.2.1] at h3
      simp at h3
  · rw [Bool.not_eq_true] at h1 h2 h3
    simp only [Except.ok.injEq]
    constructor
    · intro hc
      exact ⟨h1, h2, h3, hc.symm⟩
    · intro hcond
      exact hcond.2.2.2.symm

lemma sum_map_encodeXY_length (ps : List XY) :
    (ps.map (List.length ∘ encodeXY)).sum = 4 * ps.length := by
  induction ps with
  | nil => simp
  | cons p ps ih =>
    simp [encodeXY, u16le, ih]
    ring

lemma flatten_encodeXY_length (ps : List XY) :
    ((ps.map encodeXY).flatten).length = 4 * ps.length := by
  rw [List.length_flatten, List.map_map, sum_map_encodeXY_length]

lemma serialize_headD (hz : HueZigbeeUpdate) : hz.serialize.headD 0 = flagsByte hz := rfl

lemma setBitCount_flagsByte (hz : HueZigbeeUpdate) :
    setBitCount (flagsByte hz) = numPresent hz := by
  rcases hz with ⟨o, b, c, t, g⟩
  cases o <;> cases b <;> cases c <;> cases t <;> cases g <;>
    simp [setBitCount, flagsByte, numPresent] <;> decide

lemma testBit_flagsByte (hz : HueZigbeeUpdate) :
    (flagsByte hz).testBit 0 = hz.onoff.isSome ∧
    (flagsByte hz).testBit 1 = hz.brightness.isSome ∧
    (flagsByte hz).testBit 2 = hz.color.isSome ∧
    (flagsByte hz).testBit 3 = hz.color_temperature.isSome ∧
    (flagsByte hz).testBit 4 = hz.gradient.isSome := by
  rcases hz with ⟨o, b, c, t, g⟩
  cases o <;> cases b <;> cases c <;> cases t <;> cases g <;>
    simp [flagsByte] <;> decide

lemma serialize_length (hz : HueZigbeeUpdate) :
    hz.serialize.length =
      1 + (if hz.onoff.isSome then 1 else 0) +
      (if hz.brightness.isSome then 1 else 0) +
      (if hz.color.isSome then 4 else 0) +
      (if hz.color_temperature.isSome then 2 else 0) +
      (if hz.gradient.isSome then 4 * gradPointCount hz + 4 else 0) := by
  rcases hz with ⟨o, b, c, t, g⟩
  cases o <;> cases b <;> cases c <;> cases t <;> cases g <;>
    simp [HueZigbeeUpdate.serialize, gradPointCount, encodeXY, u16le,
      sum_map_encodeXY_length, Option.elim] <;> omega

/-- C5: whenever the encoder accepts a builder, the number of set bits in
byte 0 of the output equals the number of present optional fields (bit0
power, bit1 brightness, bit2 single color, bit3 color temperature, bit4
gradient), and the buffer length is determined by the flags byte plus the
gradient point count: 1 + bit0·1 + bit1·1 + bit2·4 + bit3·2 +
bit4·(4·N + 4), with nothing emitted for absent fields. -/
theorem C5_flags_consistency (hz : HueZigbeeUpdate) (buf : List ℕ)
    (h : hz.to_bytes = .ok buf) :
    setBitCount (buf.headD 0) = numPresent hz ∧
    buf.length =
      1 + (if (buf.headD 0).testBit 0 then 1 else 0) +
      (if (buf.headD 0).testBit 1 then 1 else 0) +
      (if (buf.headD 0).testBit 2 then 4 else 0) +
      (if (buf.headD 0).testBit 3 then 2 else 0) +
      (if (buf.headD 0).testBit 4 then 4 * gradPointCount hz + 4 else 0) := by
  obtain ⟨-, -, -, hbuf⟩ := (to_bytes_eq_ok_iff hz buf).mp h
  subst hbuf
  obtain ⟨t0, t1, t2, t3, t4⟩ := testBit_flagsByte hz
  rw [serialize_headD, t0, t1, t2, t3, t4, setBitCount_flagsByte, serialize_length]
  exact ⟨rfl, rfl⟩

/-- C5 witness: the claim instantiated at a builder with power and
brightness present, whose encoding is the two-byte buffer `[0x03, 0x01,
0x20]`. -/
theorem C5_flags_consistency_witness :
    setBitCount (((0x03 : ℕ) :: [0x01, 0x20]).headD 0) =
      numPresent ((HueZigbeeUpdate.new.with_on_off true).with_brightness 0x20) ∧
    ((0x03 : ℕ) :: [0x01, 0x20]).length =
      1 + (if (((0x03 : ℕ) :: [0x01, 0x20]).headD 0).testBit 0 then 1 else 0) +
      (if (((0x03 : ℕ) :: [0x01, 0x20]).headD 0).testBit 1 then 1 else 0) +
      (if (((0x03 : ℕ) :: [0x01, 0x20]).headD 0).testBit 2 then 4 else 0) +
      (if (((0x03 : ℕ) :: [0x01, 0x20]).headD 0).testBit 3 then 2 else 0) +
      (if (((0x03 : ℕ) :: [0x01, 0x20]).headD 0).testBit 4 then
        4 * gradPointCount ((HueZigbeeUpdate.new.with_on_off true).with_brightness 0x20) + 4
      else 0) :=
  C5_flags_consistency ((HueZigbeeUpdate.new.with_on_off true).with_brightness 0x20)
    ((0x03 : ℕ) :: [0x01, 0x20]) rfl

/-- C3: given the gradient invariant the builder maintains (1..=9 points),
`to_bytes` succeeds — with the complete serialized buffer, never a partial
one — precisely when every present field is in range: a present brightness
above 254 yields `BrightnessOutOfRange`, and otherwise a present color
temperature outside 153..=500 mirek yields `MirekOutOfRange`. -/
theorem C3_encode_validation (hz : HueZigbeeUpdate)
    (hg : ∀ gd ∈ hz.gradient, 1 ≤ gd.points.length ∧ gd.points.length ≤ 9) :
    (hz.to_bytes = .ok hz.serialize ↔
      (∀ b ∈ hz.brightness, b ≤ 254) ∧
      (∀ m ∈ hz.color_temperature, mirekMin ≤ m ∧ m ≤ mirekMax)) ∧
    (hz.to_bytes = .error .BrightnessOutOfRange ↔ ¬ (∀ b ∈ hz.brightness, b ≤ 254)) ∧
    (hz.to_bytes = .error .MirekOutOfRange ↔
      (∀ b ∈ hz.brightness, b ≤ 254) ∧
      ¬ (∀ m ∈ hz.color_temperature, mirekMin ≤ m ∧ m ≤ mirekMax)) := by
  have hg3 : (hz.gradient.any fun gd =>
      decide (gd.points.length = 0) || decide (9 < gd.points.length)) = false := by
    cases hgrad : hz.gradient with
    | none => rfl
    | some gd =>
      have hlen := hg gd (by simp [hgrad])
      simp only [Option.any, Bool.or_eq_false_iff, decide_eq_false_iff_not]
      omega
  have hbT : (hz.brightness.any fun b => decide (254 < b)) = true ↔
      ¬ (∀ b ∈ hz.brightness, b ≤ 254) := by
    cases hz.brightness <;> simp
  have hbF : (hz.brightness.any fun b => decide (254 < b)) = false ↔
      (∀ b ∈ hz.brightness, b ≤ 254) := by
    cases hz.brightness <;> simp
  have htT : (hz.color_temperature.any fun m =>
      decide (m < mirekMin) || decide (mirekMax < m)) = true ↔
      ¬ (∀ m ∈ hz.color_temperature, mirekMin ≤ m ∧ m ≤ mirekMax) := by
    cases hz.color_temperature <;> (simp; try omega)
  have htF : (hz.color_temperature.any fun m =>
      decide (m < mirekMin) || decide (mirekMax < m)) = false ↔
      (∀ m ∈ hz.color_temperature, mirekMin ≤ m ∧ m ≤ mirekMax) := by
    cases hz.color_temperature <;> (simp; try omega)
  cases hB : (hz.brightness.any fun b => decide (254 < b)) with
  | true =>
    have hto : hz.to_bytes = .error .BrightnessOutOfRange := by
      unfold HueZigbeeUpdate.to_bytes
      rw [hB]
      simp
    rw [hto]
    refine ⟨iff_of_false (by simp) fun hok => (hbT.mp hB) hok.1, iff_of_true rfl (hbT.mp hB),
      iff_of_false (by simp) fun hok => (hbT.mp hB) hok.1⟩
  | false =>
    cases hT : (hz.color_temperature.any fun m =>
        decide (m < mirekMin) || decide (mirekMax < m)) with
    | true =>
      have hto : hz.to_bytes = .error .MirekOutOfRange := by
        unfold HueZigbeeUpdate.to_bytes
        rw [hB, hT]
        simp
      rw [hto]
      refine ⟨iff_of_false (by simp) fun hok => (htT.mp hT) hok.2,
        iff_of_false (by simp) fun hnb => hnb (hbF.mp hB),
        iff_of_true rfl ⟨hbF.mp hB, htT.mp hT⟩⟩
    | false =>
      have hto : hz.to_bytes = .ok hz.serialize := by
        unfold HueZigbeeUpdate.to_bytes
        rw [hB, hT, hg3]
        simp
      rw [hto]
      refine ⟨iff_of_true rfl ⟨hbF.mp hB, htF.mp hT⟩,
        iff_of_false (by simp) fun hnb => hnb (hbF.mp hB),
        iff_of_false (by simp) fun hok => hok.2 (htF.mp hT)⟩

/-- C3 witness: brightness 255 is rejected with `BrightnessOutOfRange`,
while brightness 254 with color temperature 500 encodes to the complete
buffer. -/
theorem C3_encode_validation_witness :
    (HueZigbeeUpdate.new.with_brightness 255).to_bytes = .error .BrightnessOutOfRange ∧
    ((HueZigbeeUpdate.new.with_brightness 254).with_color_temperature 500).to_bytes =
      .ok ((HueZigbeeUpdate.new.with_brightness 254).with_color_temperature 500).serialize := by
  constructor
  · exact (C3_encode_validation (HueZigbeeUpdate.new.with_brightness 255)
      (by simp [HueZigbeeUpdate.new, HueZigbeeUpdate.with_brightness])).2.1.mpr
      (by simp [HueZigbeeUpdate.new, HueZigbeeUpdate.with_brightness])
  · exact (C3_encode_validation _
      (by simp [HueZigbeeUpdate.new, HueZigbeeUpdate.with_brightness,
        HueZigbeeUpdate.with_color_temperature])).1.mpr
      (by simp [HueZigbeeUpdate.new, HueZigbeeUpdate.with_brightness,
        HueZigbeeUpdate.with_color_temperature, mirekMin, mirekMax])

lemma GAMUT_C_contains_red : ColorGamut.GAMUT_C.contains ColorGamut.GAMUT_C.red := by
  unfold ColorGamut.GAMUT_C ColorGamut.contains cross
  norm_num

lemma clamp_GAMUT_C_red :
    ColorGamut.GAMUT_C.clamp ColorGamut.GAMUT_C.red = ColorGamut.GAMUT_C.red := by
  unfold ColorGamut.clamp
  rw [if_pos GAMUT_C_contains_red]

lemma quant16_red_x : quant16 (0.6915 : ℚ) = 45317 := by
  unfold quant16 roundHalfAway
  rw [if_pos (by norm_num)]
  norm_num
  decide

lemma quant16_red_y : quant16 (0.3083 : ℚ) = 20204 := by
  unfold quant16 roundHalfAway
  rw [if_pos (by norm_num)]
  norm_num
  decide

lemma encodeXY_GAMUT_C_red :
    encodeXY ColorGamut.GAMUT_C.red = [0x05, 0xB1, 0xEC, 0x4E] := by
  show encodeXY ⟨0.6915, 0.3083⟩ = [0x05, 0xB1, 0xEC, 0x4E]
  unfold encodeXY u16le
  rw [quant16_red_x, quant16_red_y]
  decide

/-- C1: the builder chain of `examples/hz-make.rs` — power on, brightness
0x20, a Linear gradient of two copies of the Gamut C red primary, gradient
params scale 0x38 offset 0x00 — encodes successfully to exactly the 15-byte
sequence `13 01 20 00 02 05 B1 EC 4E 05 B1 EC 4E 38 00`: flags 0x13, and
each coordinate of (0.6915, 0.3083) quantized to (45317, 20204) =
little-endian bytes `05 B1 EC 4E`. -/
theorem C1_worked_example :
    Except.bind
      (((HueZigbeeUpdate.new.with_on_off true).with_brightness 0x20).with_gradient_colors
        GradientStyle.Linear [ColorGamut.GAMUT_C.red, ColorGamut.GAMUT_C.red])
      (fun hz => (hz.with_gradient_params ⟨0x38, 0x00⟩).to_vec) =
    .ok [0x13, 0x01, 0x20, 0x00, 0x02,
         0x05, 0xB1, 0xEC, 0x4E, 0x05, 0xB1, 0xEC, 0x4E, 0x38, 0x00] := by
  have h1 : (((HueZigbeeUpdate.new.with_on_off true).with_brightness 0x20).with_gradient_colors
      GradientStyle.Linear [ColorGamut.GAMUT_C.red, ColorGamut.GAMUT_C.red]) =
      .ok { onoff := some true, brightness := some 0x20, color := none,
            color_temperature := none,
            gradient := some ⟨GradientStyle.Linear,
              [ColorGamut.GAMUT_C.red, ColorGamut.GAMUT_C.red], ⟨0, 0⟩⟩ } := by
    unfold HueZigbeeUpdate.with_gradient_colors
    rw [if_neg (by simp), if_neg (by simp)]
    simp [HueZigbeeUpdate.new, HueZigbeeUpdate.with_on_off, HueZigbeeUpdate.with_brightness,
      clamp_GAMUT_C_red]
  rw [h1]
  show ((HueZigbeeUpdate.with_gradient_params _ _).to_vec) = _
  unfold HueZigbeeUpdate.with_gradient_params
  unfold HueZigbeeUpdate.to_vec HueZigbeeUpdate.to_bytes
  rw [if_neg (by simp), if_neg (by simp), if_neg (by simp)]
  unfold HueZigbeeUpdate.serialize flagsByte GradientStyle.code
  simp [encodeXY_GAMUT_C_red, u16le]

/-- A JSON value, for the `serde_json::Value` literals built with `json!` in
`src/hue/legacy_api.rs`. Numbers are modelled by `ℚ`. -/
inductive Json where
  | null : Json
  | bool : Bool → Json
  | num : ℚ → Json
  | str : String → Json
  | arr : List Json → Json
  | obj : List (String × Json) → Json

/-- Key lookup in a JSON object. -/
def jlookup (k : String) : Json → Option Json
  | .obj kvs => kvs.lookup k
  | _ => none

/-- The `On` struct of `hue::v2`, as used by `src/hue/update.rs` and the
conversions in `src/hue/legacy_api.rs`. -/
structure On where
  «on» : Bool
deriving DecidableEq

/-- The dimming payload (`brightness: f64`), as used via `dim.brightness`
in `src/hue/legacy_api.rs` and `DimmingUpdate` in `src/hue/update.rs`. -/
structure Dimming where
  brightness : ℚ
deriving DecidableEq

/-- The color payload (`xy: XY`), as used via `col.xy` in
`src/hue/legacy_api.rs` and `ColorUpdate` in `src/hue/update.rs`. -/
structure ColorUpdate where
  xy : XY
deriving DecidableEq

/-- The `ColorTemperatureUpdate` struct of `src/hue/update.rs`
(`mirek: u32`). -/
structure ColorTemperatureUpdate where
  mirek : ℕ
deriving DecidableEq

/-- The color-temperature state of `api::Light`, whose `mirek` is optional:
`legacy_api.rs` reads it with `light.color_temperature.and_then(|ct| ct.mirek)`. -/
structure LightColorTemperature where
  mirek : Option ℕ
deriving DecidableEq

/-- Name metadata, read via `.metadata.name` in `src/hue/legacy_api.rs`. -/
structure NameMetadata where
  name : String
deriving DecidableEq

/-- The fields of `api::Light` read by `ApiLight::from_dev_and_light` in
`src/hue/legacy_api.rs` (the type itself is outside `src/`). -/
structure Light where
  «on» : On
  dimming : Option Dimming
  color : Option ColorUpdate
  color_temperature : Option LightColorTemperature
  metadata : NameMetadata

/-- The product data of `api::Device` read via `dev.product_data` in
`src/hue/legacy_api.rs`. -/
structure ProductData where
  product_name : String
  manufacturer_name : String
  model_id : String
  software_version : String

/-- The fields of `api::Device` read by `ApiLight::from_dev_and_light`. -/
structure Device where
  product_data : ProductData

/-- The fields of `api::GroupedLight` read by
`ApiGroup::from_lights_and_room` in `src/hue/legacy_api.rs`. -/
structure GroupedLight where
  «on» : Option On
  dimming : Option Dimming

/-- The fields of `api::Room` read by `ApiGroup::from_lights_and_room`. -/
structure Room where
  metadata : NameMetadata

/-- The fields of `api::SceneAction` read by the
`From<api::SceneAction> for ApiLightStateUpdate` conversion in
`src/hue/legacy_api.rs`. -/
structure SceneAction where
  «on» : Option On
  dimming : Option Dimming
  color : Option ColorUpdate
  color_temperature : Option ColorTemperatureUpdate

/-- The `LightColorMode` enum of `src/hue/legacy_api.rs`. -/
inductive LightColorMode where
  | Ct : LightColorMode
  | Xy : LightColorMode
  | Hs : LightColorMode
deriving DecidableEq

/-- The `ApiEffect` enum of `src/hue/legacy_api.rs`. -/
inductive ApiEffect where
  | None : ApiEffect
deriving DecidableEq

/-- The `ApiAlert` enum of `src/hue/legacy_api.rs`. -/
inductive ApiAlert where
  | None : ApiAlert
  | Select : ApiAlert
deriving DecidableEq

/-- The `ApiGroupType` enum of `src/hue/legacy_api.rs`. -/
inductive ApiGroupType where
  | Entertainment : ApiGroupType
  | LightGroup : ApiGroupType
  | Room : ApiGroupType
  | Zone : ApiGroupType
deriving DecidableEq

/-- Rust's `expr as u32` cast on an `f64`, over the rational model:
truncation toward zero, saturating below at 0 and above at `u32::MAX`. -/
def f64ToU32 (q : ℚ) : ℕ := min 4294967295 (Int.toNat ⌊q⌋)

/-- The `ApiGroupAction` struct of `src/hue/legacy_api.rs`. -/
structure ApiGroupAction where
  «on» : Bool
  bri : Option ℕ
  hue : Option ℕ
  sat : Option ℕ
  effect : Option ApiEffect
  xy : Option (ℚ × ℚ)
  ct : Option ℕ
  alert : ApiAlert
  colormode : Option LightColorMode

/-- The `ApiGroup` struct of `src/hue/legacy_api.rs` (the `class` field is
named `group_class` here because `class` is reserved in Lean). -/
structure ApiGroup where
  name : String
  lights : List String
  action : ApiGroupAction
  group_type : ApiGroupType
  group_class : String
  recycle : Bool
  sensors : List Json
  state : Json
  stream : Json
  locations : Json

/-- Translation of `ApiGroup::from_lights_and_room`
(`src/hue/legacy_api.rs` lines 326-354). -/
def ApiGroup.from_lights_and_room (glight : GroupedLight) (lights : List String)
    (room : Room) : ApiGroup :=
  { name := room.metadata.name
    lights := lights
    action :=
      { «on» := glight.«on».any fun o => o.«on»
        bri := glight.dimming.map fun dim => f64ToU32 (dim.brightness * 2.54)
        hue := none
        sat := none
        effect := none
        xy := none
        ct := none
        alert := ApiAlert.None
        colormode := none }
    group_class := "Bedroom"
    group_type := ApiGroupType.Room
    recycle := false
    sensors := []
    state := Json.obj []
    stream := Json.null
    locations := Json.null }

/-- The `ApiLightStateUpdate` struct of `src/hue/legacy_api.rs`. -/
structure ApiLightStateUpdate where
  «on» : Option Bool
  bri : Option ℕ
  xy : Option (ℚ × ℚ)
  ct : Option ℕ

/-- Translation of `impl From<api::SceneAction> for ApiLightStateUpdate`
(`src/hue/legacy_api.rs` lines 416-426); named `from_action` because `from`
is reserved in Lean. -/
def ApiLightStateUpdate.from_action (action : SceneAction) : ApiLightStateUpdate :=
  { «on» := action.«on».map fun o => o.«on»
    bri := action.dimming.map fun dim => f64ToU32 (dim.brightness * 2.54)
    xy := action.color.map fun col => (col.xy.x, col.xy.y)
    ct := action.color_temperature.map fun ct => ct.mirek }

/-- The `ApiLightState` struct of `src/hue/legacy_api.rs`. -/
structure ApiLightState where
  «on» : Bool
  bri : Option ℕ
  hue : Option ℕ
  sat : Option ℕ
  effect : Option String
  xy : Option (ℚ × ℚ)
  ct : Option ℕ
  alert : String
  colormode : Option LightColorMode
  mode : String
  reachable : Bool

/-- A 128-bit UUID (`uuid::Uuid`), modelled by its value as a natural
number below 2^128. -/
structure Uuid where
  val : ℕ
  lt : val < 2 ^ 128

/-- The `as_simple` rendering of a UUID: 32 lowercase hexadecimal digits,
most significant nibble first, no hyphens. -/
def uuidSimple (u : Uuid) : String :=
  String.mk ((List.range 32).map fun i => Nat.digitChar (u.val / 16 ^ (31 - i) % 16))

/-- The `ApiLight` struct of `src/hue/legacy_api.rs`. The `swupdate` field
is omitted: it only carries a timestamp taken from the wall clock
(`SwUpdate::default()`), which a pure embedding cannot observe. -/
structure ApiLight where
  state : ApiLightState
  light_type : String
  name : String
  modelid : String
  manufacturername : String
  productname : String
  capabilities : Json
  config : Json
  uniqueid : String
  swversion : String
  swconfigid : Option String
  productid : Option String

/-- Translation of `ApiLight::from_dev_and_light`
(`src/hue/legacy_api.rs` lines 448-516), including its `json!` capability
and config literals verbatim. -/
def ApiLight.from_dev_and_light (uuid : Uuid) (dev : Device) (light : Light) : ApiLight :=
  { state :=
      { «on» := light.«on».«on»
        bri := light.dimming.map fun dim => f64ToU32 (dim.brightness * 2.54)
        hue := none
        sat := none
        effect := none
        xy := light.color.map fun col => (col.xy.x, col.xy.y)
        ct := light.color_temperature.bind fun ct => ct.mirek
        alert := ""
        colormode := some (if light.color.isSome then LightColorMode.Xy else LightColorMode.Ct)
        mode := "homeautomation"
        reachable := true }
    name := light.metadata.name
    modelid := dev.product_data.product_name
    manufacturername := dev.product_data.manufacturer_name
    productname := "Hue color spot"
    productid := some dev.product_data.model_id
    capabilities := Json.obj
      [("certified", Json.bool true),
       ("control", Json.obj
         [("colorgamut", Json.arr
           [Json.arr [Json.num 0.6915, Json.num 0.3083],
            Json.arr [Json.num 0.17, Json.num 0.7],
            Json.arr [Json.num 0.1532, Json.num 0.0475]]),
          ("colorgamuttype", Json.str "C"),
          ("ct", Json.obj [("max", Json.num 500), ("min", Json.num 153)]),
          ("maxlumen", Json.num 300),
          ("mindimlevel", Json.num 200)]),
       ("streaming", Json.obj
         [("proxy", Json.bool true), ("renderer", Json.bool true)])]
    config := Json.obj
      [("archetype", Json.str "spotbulb"),
       ("function", Json.str "mixed"),
       ("direction", Json.str "downwards"),
       ("startup", Json.obj
         [("mode", Json.str "safety"), ("configured", Json.bool true)])]
    light_type := "Extended color light"
    uniqueid := uuidSimple uuid
    swversion := dev.product_data.software_version
    swconfigid := none }

/-- The `DimmingUpdate` struct of `src/hue/update.rs`. -/
structure DimmingUpdate where
  brightness : ℚ
deriving DecidableEq

/-- The `LightUpdate` struct of `src/hue/update.rs`. -/
structure LightUpdate where
  «on» : Option On
  dimming : Option DimmingUpdate
  color : Option ColorUpdate
  color_temp : Option ℚ
  color_temperature : Option ColorTemperatureUpdate
deriving DecidableEq

/-- The `GroupedLightUpdate` struct of `src/hue/update.rs`. -/
structure GroupedLightUpdate where
  «on» : Option On
  dimming : Option DimmingUpdate
  color : Option ColorUpdate
  color_temp : Option ℚ
  color_temperature : Option ColorTemperatureUpdate
deriving DecidableEq

/-- The `SceneRecallAction` enum of `src/hue/update.rs`. -/
inductive SceneRecallAction where
  | Active : SceneRecallAction
  | DynamicPalette : SceneRecallAction
  | Static : SceneRecallAction
deriving DecidableEq

/-- The `SceneRecall` struct of `src/hue/update.rs`. -/
structure SceneRecall where
  action : Option SceneRecallAction
  duration : Option ℕ
  dimming : Option DimmingUpdate
deriving DecidableEq

/-- The `SceneUpdate` struct of `src/hue/update.rs`. -/
structure SceneUpdate where
  «recall» : Option SceneRecall
deriving DecidableEq

/-- The `Update` enum of `src/hue/update.rs`. -/
inductive Update where
  | GroupedLight : GroupedLightUpdate → Update
  | Light : LightUpdate → Update
  | Scene : SceneUpdate → Update
deriving DecidableEq

/-- The `UpdateRecord` struct of `src/hue/update.rs`. -/
structure UpdateRecord where
  id : Uuid
  id_v1 : String
  obj : Update

/-- Translation of `UpdateRecord::from_ref` (`src/hue/update.rs` lines
52-61): the Rust function takes `(&Uuid, &Update)` and clones; the value
model takes the pair by value. -/
def UpdateRecord.from_ref : Uuid × Update → UpdateRecord
  | (id, obj) =>
    { id := id
      id_v1 := "/legacy/" ++ uuidSimple id
      obj := obj }

lemma digitChar_mem_hex : ∀ n < 16,
    (("0123456789abcdef".data).contains (Nat.digitChar n)) = true := by decide

/-- C7: for every uuid, device and light, the capabilities produced by
`ApiLight::from_dev_and_light` report the published Gamut C preset
unchanged — colorgamut [[0.6915, 0.3083], [0.17, 0.7], [0.1532, 0.0475]]
with colorgamuttype "C" — and ct limits min 153, max 500, equal to the
encoder's mirek validation range. -/
theorem C7_capabilities_gamut (uuid : Uuid) (dev : Device) (light : Light) :
    ((jlookup "control" ((ApiLight.from_dev_and_light uuid dev light).capabilities)).bind
        (jlookup "colorgamut") =
      some (Json.arr
        [Json.arr [Json.num ColorGamut.GAMUT_C.red.x, Json.num ColorGamut.GAMUT_C.red.y],
         Json.arr [Json.num ColorGamut.GAMUT_C.green.x, Json.num ColorGamut.GAMUT_C.green.y],
         Json.arr [Json.num ColorGamut.GAMUT_C.blue.x, Json.num ColorGamut.GAMUT_C.blue.y]])) ∧
    ((jlookup "control" ((ApiLight.from_dev_and_light uuid dev light).capabilities)).bind
        (jlookup "colorgamuttype") = some (Json.str "C")) ∧
    ((jlookup "control" ((ApiLight.from_dev_and_light uuid dev light).capabilities)).bind
        (jlookup "ct") =
      some (Json.obj [("max", Json.num 500), ("min", Json.num 153)])) ∧
    ColorGamut.GAMUT_C = ⟨⟨0.6915, 0.3083⟩, ⟨0.17, 0.7⟩, ⟨0.1532, 0.0475⟩⟩ ∧
    mirekMin = 153 ∧ mirekMax = 500 :=
  ⟨rfl, rfl, rfl, rfl, rfl, rfl⟩

/-- C9: `ApiLight::from_dev_and_light` sets the legacy state's colormode to
`Some(Xy)` exactly when `light.color` is present and `Some(Ct)` otherwise,
sets `state.xy` to `Some` exactly when `light.color` is present, and never
leaves colormode absent. -/
theorem C9_colormode (uuid : Uuid) (dev : Device) (light : Light) :
    (ApiLight.from_dev_and_light uuid dev light).state.colormode =
      some (if light.color.isSome then LightColorMode.Xy else LightColorMode.Ct) ∧
    (ApiLight.from_dev_and_light uuid dev light).state.xy.isSome = light.color.isSome ∧
    (ApiLight.from_dev_and_light uuid dev light).state.colormode.isSome = true := by
  refine ⟨rfl, ?_, rfl⟩
  cases h : light.color <;> simp [ApiLight.from_dev_and_light, h]

/-- C8: every legacy-brightness conversion computes Rust's
`(brightness * 2.54) as u32`, which on 0 ≤ brightness ≤ 100 is exactly
truncation of `brightness * 2.54`, lies in 0..=254, and maps brightness
100 to exactly 254 — alike in `ApiGroup::from_lights_and_room`,
`ApiLightStateUpdate::from` and `ApiLight::from_dev_and_light`. -/
theorem C8_legacy_bri (b : ℚ) (hb0 : 0 ≤ b) (hb1 : b ≤ 100)
    (glight : GroupedLight) (lights : List String) (room : Room) (action : SceneAction)
    (uuid : Uuid) (dev : Device) (light : Light)
    (hgd : glight.dimming = some ⟨b⟩) (had : action.dimming = some ⟨b⟩)
    (hld : light.dimming = some ⟨b⟩) :
    (ApiGroup.from_lights_and_room glight lights room).action.bri =
      some (f64ToU32 (b * 2.54)) ∧
    (ApiLightStateUpdate.from_action action).bri = some (f64ToU32 (b * 2.54)) ∧
    (ApiLight.from_dev_and_light uuid dev light).state.bri =
      some (f64ToU32 (b * 2.54)) ∧
    f64ToU32 (b * 2.54) = Int.toNat ⌊b * 2.54⌋ ∧
    Int.toNat ⌊b * 2.54⌋ ≤ 254 ∧
    (b = 100 → f64ToU32 (b * 2.54) = 254) := by
  have hle : b * 2.54 ≤ 254 := by nlinarith
  have hfloor : ⌊b * 2.54⌋ ≤ 254 := by
    calc ⌊b * 2.54⌋ ≤ ⌊(254 : ℚ)⌋ := Int.floor_le_floor hle
    _ = 254 := by norm_num
  have htn : Int.toNat ⌊b * 2.54⌋ ≤ 254 := by omega
  have hmin : f64ToU32 (b * 2.54) = Int.toNat ⌊b * 2.54⌋ := by
    unfold f64ToU32
    omega
  refine ⟨?_, ?_, ?_, hmin, htn, ?_⟩
  · simp [ApiGroup.from_lights_and_room, hgd]
  · simp [ApiLightStateUpdate.from_action, had]
  · simp [ApiLight.from_dev_and_light, hld]
  · intro h100
    subst h100
    rw [hmin]
    norm_num
    decide

/-- C8 witness: the claim instantiated at brightness 100 in all three
conversions, where the legacy bri is exactly 254. -/
theorem C8_legacy_bri_witness :
    (ApiGroup.from_lights_and_room ⟨some ⟨true⟩, some ⟨100⟩⟩ [] ⟨⟨"r"⟩⟩).action.bri =
      some (f64ToU32 ((100 : ℚ) * 2.54)) ∧
    (ApiLightStateUpdate.from_action ⟨none, some ⟨100⟩, none, none⟩).bri =
      some (f64ToU32 ((100 : ℚ) * 2.54)) ∧
    (ApiLight.from_dev_and_light ⟨0, by norm_num⟩ ⟨⟨"", "", "", ""⟩⟩
        ⟨⟨true⟩, some ⟨100⟩, none, none, ⟨"l"⟩⟩).state.bri =
      some (f64ToU32 ((100 : ℚ) * 2.54)) ∧
    f64ToU32 ((100 : ℚ) * 2.54) = Int.toNat ⌊(100 : ℚ) * 2.54⌋ ∧
    Int.toNat ⌊(100 : ℚ) * 2.54⌋ ≤ 254 ∧
    ((100 : ℚ) = 100 → f64ToU32 ((100 : ℚ) * 2.54) = 254) :=
  C8_legacy_bri 100 (by norm_num) (by norm_num) _ _ _ _ _ _ _ rfl rfl rfl

/-- C10: `UpdateRecord::from_ref` returns a record whose id equals the
input UUID, whose obj is the input update, and whose id_v1 is exactly
"/legacy/" followed by the 32-character simple (hyphen-free lowercase
hexadecimal) rendering of the UUID. -/
theorem C10_update_record_from_ref (id : Uuid) (obj : Update) :
    (UpdateRecord.from_ref (id, obj)).id = id ∧
    (UpdateRecord.from_ref (id, obj)).obj = obj ∧
    (UpdateRecord.from_ref (id, obj)).id_v1 = "/legacy/" ++ uuidSimple id ∧
    (uuidSimple id).length = 32 ∧
    ((uuidSimple id).data.all fun c => ("0123456789abcdef".data).contains c) = true := by
  refine ⟨rfl, rfl, rfl, ?_, ?_⟩
  · simp [uuidSimple, String.length]
  · have hdata : (uuidSimple id).data =
        (List.range 32).map fun i => Nat.digitChar (id.val / 16 ^ (31 - i) % 16) := rfl
    rw [hdata, List.all_eq_true]
    intro c hc
    simp only [List.mem_map] at hc
    obtain ⟨i, -, hci⟩ := hc
    rw [← hci]
    exact digitChar_mem_hex _ (Nat.mod_lt _ (by norm_num))
